import Mathlib

/-!
Shallow embedding of `src/neural-classy/main.py`, a short pandas/matplotlib
script.  The script:

* line 7 : `df = pd.read_csv('assignment_data.csv')`
* line 9 : `print(df)`
* line 11: `seizure_positive = df.query('y == 1')`
* line 12: `seizure_negative = df.query('y == 0')`
* line 15: `print(seizure_negative.loc[[0, 1, 2]])`
* line 19: `ax.plot(seizure_negative.loc[0])`
* lines 21-26: `ax.set(title=..., xticks=[i * 100 for i in range(30)],
  xlabel="milliseconds", ylabel="I don't know")`

Cell values are modelled as `ℚ`; a missing cell (pandas `NaN` produced by
padding a short CSV row) is `Option.none`.  A `DataFrame` is its column
names together with its rows, each row carrying its pandas index label.
`pd.read_csv` gives a fresh `RangeIndex`, so labels are the rationals
`0, 1, 2, ...`; `DataFrame.query` keeps the original labels.
-/

/-- A cell of a data frame: `none` models pandas `NaN`. -/
abbrev Cell := Option ℚ

/-- The pandas index label of a row.  `pd.read_csv` with the default
settings produces a `RangeIndex`, i.e. the labels `0, 1, 2, ...`; when the
first data row is wider than the header the leading extra columns become
the implicit index, so labels carry cell values and are modelled as `ℚ`. -/
abbrev Label := ℚ

/-- A data frame: column names plus rows, each row paired with its index
label.  Embeds the pandas `DataFrame` objects of `main.py`. -/
structure DataFrame where
  columns : List String
  rows : List (Label × List Cell)
deriving DecidableEq, Repr

/-- A raw delimited text file: a header row of column names and data rows
of numeric fields, as `pd.read_csv` sees `assignment_data.csv`. -/
structure CSVFile where
  header : List String
  rows : List (List ℚ)
deriving DecidableEq, Repr

/-- The file system visible to the script: a partial map from paths to CSV
files.  `none` models a missing or unreadable path. -/
abbrev FileSystem := String → Option CSVFile

/-- Errors raised by `pd.read_csv` (line 7 of `main.py`):
`FileNotFoundError` for a missing path, `pandas.errors.ParserError` for a
data row with more fields than expected. -/
inductive LoadError where
  | FileAccessError
  | ParseError
deriving DecidableEq, Repr

/-- Errors raised by `DataFrame.loc` (lines 15 and 19 of `main.py`):
`KeyError` when a requested index label is absent. -/
inductive SelectError where
  | KeyError
deriving DecidableEq, Repr

/-- The field count `pd.read_csv` expects of every data row.  pandas
establishes it from the first data row, however wide it is: when that row
is wider than the header, every field beyond the header width is a leading
index column; the header width is the floor.  Later rows may be narrower
(they are padded) but never wider. -/
def expectedWidth (f : CSVFile) : Nat :=
  match f.rows with
  | [] => f.header.length
  | r :: _ => max f.header.length r.length

/-- Pad a data row to `n` cells: present fields become `some`, missing
trailing fields become `none` (pandas fills them with `NaN`). -/
def padTo (n : Nat) (r : List ℚ) : List Cell :=
  r.map some ++ List.replicate (n - r.length) none

/-- `pd.read_csv` (line 7 of `main.py`): fails with `FileAccessError` when
the path is missing, with `ParseError` when some later data row has more
fields than `expectedWidth` (the first data row can never exceed it);
otherwise rows shorter than expected are padded with `NaN`.  When the
first data row is `k ≥ 1` fields wider than the header, the `k` leading
fields of each row become an implicit `k`-level index and the load
succeeds; the model keeps the first index level as the row's label (for
`k = 1` this is the whole pandas index; deeper levels of a `k ≥ 2`
`MultiIndex` are not tracked, and no frame the script or the claims
inspect has one).  Otherwise rows get the `RangeIndex` labels
`0, 1, 2, ...`. -/
def read_csv (fs : FileSystem) (path : String) : Except LoadError DataFrame :=
  match fs path with
  | none => .error .FileAccessError
  | some f =>
    if f.rows.any (fun r => decide (expectedWidth f < r.length)) then
      .error .ParseError
    else if f.header.length < expectedWidth f then
      .ok { columns := f.header,
            rows := f.rows.map (fun r =>
              (r.headD 0,
               (padTo (expectedWidth f) r).drop (expectedWidth f - f.header.length))) }
    else
      .ok { columns := f.header,
            rows := f.rows.enum.map (fun p => ((p.1 : ℚ), padTo f.header.length p.2)) }

/-- Build the data frame `read_csv` produces from already-padded rows: a
fresh `RangeIndex`, label `i` on the `i`-th row. -/
def withRangeIndex (cols : List String) (rs : List (List Cell)) : DataFrame :=
  { columns := cols, rows := rs.enum.map (fun p => ((p.1 : ℚ), p.2)) }

/-- The value of the cells of a row in the column named `"y"`. -/
def yValue (cols : List String) (cells : List Cell) : Option ℚ :=
  (cells.get? (cols.indexOf "y")).join

/-- `df.query('y == v')` (lines 11-12 of `main.py`): the order-preserving
subsequence of rows whose `"y"` cell equals `v`, original labels kept.
A `NaN` cell compares unequal to every value, as in pandas. -/
def queryY (df : DataFrame) (v : ℚ) : DataFrame :=
  { columns := df.columns,
    rows := df.rows.filter (fun r => decide (yValue df.columns r.2 = some v)) }

/-- `df.loc[labels]` with a list argument (line 15 of `main.py`):
label-based lookup.  If every requested label occurs in the index it
returns, for each requested label in order, the row carrying it; otherwise
it raises `KeyError`.  (Index labels are unique in every frame the script
builds, so taking the first match is exact.) -/
def locList (df : DataFrame) (labels : List Label) : Except SelectError DataFrame :=
  if labels.all (fun l => df.rows.any (fun r => decide (r.1 = l))) then
    .ok { columns := df.columns,
          rows := labels.filterMap (fun l => df.rows.find? (fun r => decide (r.1 = l))) }
  else
    .error .KeyError

/-- `df.loc[l]` with a scalar argument (line 19 of `main.py`): label-based
lookup of a single row, `KeyError` when the label is absent. -/
def locScalar (df : DataFrame) (l : Label) : Except SelectError (List Cell) :=
  match df.rows.find? (fun r => decide (r.1 = l)) with
  | some r => .ok r.2
  | none => .error .KeyError

/-- The axis configuration passed to `ax.set` (lines 21-26). -/
structure Config where
  title : String
  xticks : List Nat
  xlabel : String
  ylabel : String
deriving DecidableEq, Repr

/-- The configuration of `main.py`: `title="Seizure positive vs negative"`,
`xticks=[i * 100 for i in range(30)]`, `xlabel="milliseconds"`,
`ylabel="I don't know"`. -/
def mainConfig : Config :=
  { title := "Seizure positive vs negative",
    xticks := (List.range 30).map (fun i => i * 100),
    xlabel := "milliseconds",
    ylabel := "I don't know" }

/-- The rendered figure: the line series as a list of points, plus axis
metadata. -/
structure Plot where
  points : List (Nat × Cell)
  title : String
  xticks : List Nat
  xlabel : String
  ylabel : String
deriving DecidableEq, Repr

/-- `ax.plot(row)` followed by `ax.set(...)` (lines 17-26): one-argument
`plot` draws the `i`-th value of the row at abscissa `i`, passing the
values through unchanged. -/
def renderLinePlot (row : List Cell) (cfg : Config) : Plot :=
  { points := row.enum,
    title := cfg.title,
    xticks := cfg.xticks,
    xlabel := cfg.xlabel,
    ylabel := cfg.ylabel }

/-- The mutable state of the script after the load of line 7: the loaded
frame, the two partitions once computed, everything printed so far, and
the figure once rendered. -/
structure ScriptState where
  df : DataFrame
  positive : Option DataFrame
  negative : Option DataFrame
  printed : List DataFrame
  figure : Option Plot
deriving DecidableEq, Repr

/-- The state right after `pd.read_csv` returns. -/
def initState (df : DataFrame) : ScriptState :=
  { df := df, positive := none, negative := none, printed := [], figure := none }

/-- Line 9: `print(df)`. -/
def stepPrintDf (s : ScriptState) : Except SelectError ScriptState :=
  .ok { s with printed := s.printed ++ [s.df] }

/-- Line 11: `seizure_positive = df.query('y == 1')`. -/
def stepFilterPositive (s : ScriptState) : Except SelectError ScriptState :=
  .ok { s with positive := some (queryY s.df 1) }

/-- Line 12: `seizure_negative = df.query('y == 0')`. -/
def stepFilterNegative (s : ScriptState) : Except SelectError ScriptState :=
  .ok { s with negative := some (queryY s.df 0) }

/-- Line 15: `print(seizure_negative.loc[[0, 1, 2]])`. -/
def stepPrintSelection (s : ScriptState) : Except SelectError ScriptState :=
  match s.negative with
  | none => .error .KeyError
  | some neg =>
    (locList neg [0, 1, 2]).map (fun sel => { s with printed := s.printed ++ [sel] })

/-- Lines 17-26: `ax.plot(seizure_negative.loc[0])` with the axis
configuration. -/
def stepPlot (s : ScriptState) : Except SelectError ScriptState :=
  match s.negative with
  | none => .error .KeyError
  | some neg =>
    (locScalar neg 0).map (fun row => { s with figure := some (renderLinePlot row mainConfig) })

/-- The operations `main.py` performs after the load, in program order. -/
def scriptSteps : List (ScriptState → Except SelectError ScriptState) :=
  [stepPrintDf, stepFilterPositive, stepFilterNegative, stepPrintSelection, stepPlot]

/-- Run the whole script on a loaded frame; an error at any step aborts
the process, as in the script. -/
def runScript (df : DataFrame) : Except SelectError ScriptState :=
  scriptSteps.foldlM (fun s step => step s) (initState df)

deriving instance DecidableEq for Except

/-! ### Concrete inputs used by the counterexamples and witnesses -/

/-- The end-to-end scenario file of the specification: columns
`y,f0,f1,f2`, rows `(1,0.1,0.2,0.3)`, `(0,0.4,0.5,0.6)`, `(0,0.7,0.8,0.9)`,
`(0,1.0,1.1,1.2)`. -/
def scenarioFile : CSVFile :=
  { header := ["y", "f0", "f1", "f2"],
    rows := [[1, mkRat 1 10, mkRat 2 10, mkRat 3 10],
             [0, mkRat 4 10, mkRat 5 10, mkRat 6 10],
             [0, mkRat 7 10, mkRat 8 10, mkRat 9 10],
             [0, 1, mkRat 11 10, mkRat 12 10]] }

/-- A file system holding exactly the scenario file at the path the script
reads. -/
def scenarioFS : FileSystem :=
  fun p => if p = "assignment_data.csv" then some scenarioFile else none

/-- The frame `read_csv` produces from `scenarioFile`: a fresh
`RangeIndex`, so the one positive row carries label `0` and the three
negative rows carry labels `1`, `2`, `3`. -/
def scenarioDf : DataFrame :=
  { columns := ["y", "f0", "f1", "f2"],
    rows := [((0 : ℚ), [some 1, some (mkRat 1 10), some (mkRat 2 10), some (mkRat 3 10)]),
             ((1 : ℚ), [some 0, some (mkRat 4 10), some (mkRat 5 10), some (mkRat 6 10)]),
             ((2 : ℚ), [some 0, some (mkRat 7 10), some (mkRat 8 10), some (mkRat 9 10)]),
             ((3 : ℚ), [some 0, some 1, some (mkRat 11 10), some (mkRat 12 10)])] }

/-- A ragged file: the header has two columns, the first data row two
fields, the second data row only one. -/
def raggedFile : CSVFile :=
  { header := ["a", "b"], rows := [[1, 2], [3]] }

/-- A file system holding exactly `raggedFile`. -/
def raggedFS : FileSystem :=
  fun p => if p = "ragged.csv" then some raggedFile else none

/-- A file whose data rows are two fields wider than its two-column
header: `pd.read_csv` turns the two leading columns into an implicit
index and loads it without error. -/
def wideFile : CSVFile :=
  { header := ["a", "b"], rows := [[1, 2, 3, 4], [5, 6, 7, 8]] }

/-- A file system holding exactly `wideFile`. -/
def wideFS : FileSystem :=
  fun p => if p = "wide.csv" then some wideFile else none

/-- A loaded frame whose first three rows are all negative, so that the
whole script runs to completion on it. -/
def okDf : DataFrame := withRangeIndex ["y"] [[some 0], [some 0], [some 0]]

/-- The state the script ends in when run on `okDf`. -/
def okFinal : ScriptState :=
  { df := okDf,
    positive := some { columns := ["y"], rows := [] },
    negative := some { columns := ["y"], rows := okDf.rows },
    printed := [okDf, { columns := ["y"], rows := okDf.rows }],
    figure := some (renderLinePlot [some 0] mainConfig) }

/-! ### Theorems -/

/-- C2 (counterexample): on the specification's end-to-end CSV the load
succeeds and the partitions have the stated sizes, but
`seizure_negative.loc[[0, 1, 2]]` does not return the three negative rows:
it raises `KeyError`, because `loc` looks rows up by their original index
labels and the negative rows carry labels `1`, `2`, `3`. -/
theorem scenario_selection_raises_keyerror :
    read_csv scenarioFS "assignment_data.csv" = .ok scenarioDf
    ∧ (queryY scenarioDf 1).rows.length = 1
    ∧ (queryY scenarioDf 0).rows.length = 3
    ∧ locList (queryY scenarioDf 0) [0, 1, 2] = .error .KeyError := by decide

/-- C2 (amended): on the scenario CSV the positive partition has one row
and the negative partition has three rows, carrying the original labels
`1`, `2`, `3`; the selection of labels `[0, 1, 2]` raises `KeyError` (label
`0` belongs to the positive row), so the script terminates before
plotting, and the lone plot lookup `negative.loc[0]` would fail the same
way; the negative row whose features are `0.4, 0.5, 0.6` is the one with
label `1`. -/
theorem scenario_script_outcome :
    read_csv scenarioFS "assignment_data.csv" = .ok scenarioDf
    ∧ (queryY scenarioDf 1).rows.length = 1
    ∧ (queryY scenarioDf 0).rows.length = 3
    ∧ (queryY scenarioDf 0).rows.map Prod.fst = [1, 2, 3]
    ∧ locList (queryY scenarioDf 0) [0, 1, 2] = .error .KeyError
    ∧ locScalar (queryY scenarioDf 0) 0 = .error .KeyError
    ∧ locScalar (queryY scenarioDf 0) 1
        = .ok [some 0, some (mkRat 4 10), some (mkRat 5 10), some (mkRat 6 10)]
    ∧ runScript scenarioDf = .error .KeyError := by decide

/-- C1 (counterexample): a dataset whose negative partition has three
rows, on which the selection of `[0, 1, 2]` raises `KeyError` instead of
returning the first three negative rows: the dataset's row `0` is
positive, so label `0` is absent from the negative partition. -/
theorem selection_not_ordinal :
    3 ≤ (queryY scenarioDf 0).rows.length
    ∧ locList (queryY scenarioDf 0) [0, 1, 2]
        ≠ .ok { columns := scenarioDf.columns,
                rows := (queryY scenarioDf 0).rows.take 3 } := by decide

/-- C6 (counterexample): a file whose data rows have inconsistent field
counts (two fields, then one) loads without a `ParseError`: `read_csv`
pads the short row with `NaN`. -/
theorem short_row_loads_without_error :
    raggedFile.rows.map List.length = [2, 1]
    ∧ read_csv raggedFS "ragged.csv"
        = .ok { columns := ["a", "b"],
                rows := [((0 : ℚ), [some 1, some 2]), ((1 : ℚ), [some 3, none])] } := by decide

/-- C5: one-argument `ax.plot` on a row of length `N` produces a series of
exactly `N` points whose abscissae are `0 .. N-1` and whose ordinates are
the row's values passed through unchanged. -/
theorem renderLinePlot_points (row : List Cell) (cfg : Config) :
    (renderLinePlot row cfg).points.length = row.length
    ∧ (renderLinePlot row cfg).points.map Prod.fst = List.range row.length
    ∧ (renderLinePlot row cfg).points.map Prod.snd = row := by
  refine ⟨List.enum_length, List.enum_map_fst row, List.enum_map_snd row⟩

/-- A row is in a `RangeIndex`-ed frame exactly when it is the `j`-th row
of the underlying list and carries the label `j`. -/
theorem mem_withRangeIndex {cols : List String} {rs : List (List Cell)}
    {l : Label} {cells : List Cell} :
    (l, cells) ∈ (withRangeIndex cols rs).rows
      ↔ ∃ j : ℕ, rs[j]? = some cells ∧ l = (j : ℚ) := by
  constructor
  · intro h
    simp only [withRangeIndex, List.mem_map] at h
    obtain ⟨⟨j, c⟩, hj, heq⟩ := h
    rw [List.mk_mem_enum_iff_getElem?] at hj
    injection heq with h1 h2
    have h2' : c = cells := h2
    have h1' : ((j : ℕ) : ℚ) = l := h1
    exact ⟨j, by rw [← h2']; exact hj, h1'.symm⟩
  · rintro ⟨j, hj, rfl⟩
    refine List.mem_map.mpr ⟨(j, cells), ?_, rfl⟩
    exact List.mk_mem_enum_iff_getElem?.mpr hj

/-- In a `RangeIndex`-ed frame the label determines the row. -/
theorem withRangeIndex_label_inj {cols : List String} {rs : List (List Cell)}
    {r s : Label × List Cell}
    (hr : r ∈ (withRangeIndex cols rs).rows) (hs : s ∈ (withRangeIndex cols rs).rows)
    (h : r.1 = s.1) : r = s := by
  obtain ⟨lr, cr⟩ := r
  obtain ⟨ls, cs⟩ := s
  obtain ⟨j, hj, rfl⟩ := mem_withRangeIndex.mp hr
  obtain ⟨k, hk, rfl⟩ := mem_withRangeIndex.mp hs
  obtain rfl : j = k := Nat.cast_inj.mp h
  simp only [hj, Option.some.injEq] at hk
  simp [hk]

/-- `filterMap` with a function that succeeds on every element keeps the
length. -/
theorem length_filterMap_of_isSome {α β : Type _} (f : α → Option β) :
    ∀ l : List α, (∀ a ∈ l, (f a).isSome) → (l.filterMap f).length = l.length := by
  intro l
  induction l with
  | nil => simp
  | cons a as ih =>
    intro h
    have ha := h a (List.mem_cons_self a as)
    obtain ⟨b, hb⟩ := Option.isSome_iff_exists.mp ha
    simp [List.filterMap_cons, hb, ih fun x hx => h x (List.mem_cons_of_mem a hx)]

/-- C3: on a dataset whose labels all lie in `{0, 1}`, the two `query`
partitions are order-preserving subsequences of the dataset and together
contain every row exactly once. -/
theorem filterByLabel_partitions (df : DataFrame)
    (h : ∀ r ∈ df.rows, yValue df.columns r.2 = some 1 ∨ yValue df.columns r.2 = some 0) :
    (queryY df 1).rows.Sublist df.rows
    ∧ (queryY df 0).rows.Sublist df.rows
    ∧ ((queryY df 1).rows ++ (queryY df 0).rows).Perm df.rows := by
  refine ⟨List.filter_sublist _, List.filter_sublist _, ?_⟩
  have hq : (queryY df 0).rows
      = df.rows.filter (fun r => !(decide (yValue df.columns r.2 = some 1))) := by
    apply List.filter_congr
    intro r hr
    rcases h r hr with h1 | h0
    · simp [h1]
    · simp [h0]
  rw [show (queryY df 0).rows
        = df.rows.filter (fun r => !(decide (yValue df.columns r.2 = some 1))) from hq]
  exact List.filter_append_perm _ df.rows

/-- C3 (witness): the partition property at the scenario frame. -/
theorem filterByLabel_partitions_witness :
    (∀ r ∈ scenarioDf.rows,
        yValue scenarioDf.columns r.2 = some 1 ∨ yValue scenarioDf.columns r.2 = some 0)
    ∧ ((queryY scenarioDf 1).rows.Sublist scenarioDf.rows
        ∧ (queryY scenarioDf 0).rows.Sublist scenarioDf.rows
        ∧ ((queryY scenarioDf 1).rows ++ (queryY scenarioDf 0).rows).Perm scenarioDf.rows) :=
  ⟨by decide, filterByLabel_partitions scenarioDf (by decide)⟩

/-- C9: a row whose `y` value is neither `0` nor `1` lands in neither
partition — it is dropped silently, both `query` calls being total — and
the two partitions cover the dataset exactly when every row's `y` value is
`0` or `1`. -/
theorem unlabeled_rows_dropped (df : DataFrame) :
    (∀ r ∈ df.rows, yValue df.columns r.2 ≠ some 1 → yValue df.columns r.2 ≠ some 0 →
        r ∉ (queryY df 1).rows ∧ r ∉ (queryY df 0).rows)
    ∧ ((∀ r ∈ df.rows, r ∈ (queryY df 1).rows ∨ r ∈ (queryY df 0).rows)
        ↔ ∀ r ∈ df.rows, yValue df.columns r.2 = some 1 ∨ yValue df.columns r.2 = some 0) := by
  constructor
  · intro r _ h1 h0
    constructor
    · intro hmem
      exact h1 (of_decide_eq_true (List.mem_filter.mp hmem).2)
    · intro hmem
      exact h0 (of_decide_eq_true (List.mem_filter.mp hmem).2)
  · constructor
    · intro hcov r hr
      rcases hcov r hr with hm | hm
      · exact Or.inl (of_decide_eq_true (List.mem_filter.mp hm).2)
      · exact Or.inr (of_decide_eq_true (List.mem_filter.mp hm).2)
    · intro hy r hr
      rcases hy r hr with h | h
      · exact Or.inl (List.mem_filter.mpr ⟨hr, decide_eq_true h⟩)
      · exact Or.inr (List.mem_filter.mpr ⟨hr, decide_eq_true h⟩)

/-- C9 (witness): the frame with the single row `y = 2`, which belongs to
neither partition, and on which coverage fails. -/
theorem unlabeled_rows_dropped_witness :
    (((0 : ℕ) : ℚ), [some (2 : ℚ)]) ∈ (withRangeIndex ["y"] [[some 2]]).rows
    ∧ yValue ["y"] [some (2 : ℚ)] ≠ some 1
    ∧ yValue ["y"] [some (2 : ℚ)] ≠ some 0
    ∧ ((((0 : ℕ) : ℚ), [some (2 : ℚ)]) ∉ (queryY (withRangeIndex ["y"] [[some 2]]) 1).rows
        ∧ (((0 : ℕ) : ℚ), [some (2 : ℚ)]) ∉ (queryY (withRangeIndex ["y"] [[some 2]]) 0).rows) :=
  ⟨by decide, by decide, by decide,
    (unlabeled_rows_dropped (withRangeIndex ["y"] [[some 2]])).1
      ((((0 : ℕ) : ℚ), [some (2 : ℚ)])) (by decide) (by decide) (by decide)⟩

/-- C10: filtering preserves row identity: each partition is a verbatim
subsequence of the `RangeIndex`-ed dataset (labels carried unchanged, not
renumbered), and the two partitions' label sets are disjoint subsets of
the dataset's labels. -/
theorem filter_preserves_labels (cols : List String) (rs : List (List Cell)) :
    (queryY (withRangeIndex cols rs) 1).rows.Sublist (withRangeIndex cols rs).rows
    ∧ (queryY (withRangeIndex cols rs) 0).rows.Sublist (withRangeIndex cols rs).rows
    ∧ (∀ l, l ∈ ((queryY (withRangeIndex cols rs) 1).rows.map Prod.fst) →
        l ∉ ((queryY (withRangeIndex cols rs) 0).rows.map Prod.fst))
    ∧ (∀ l, l ∈ ((queryY (withRangeIndex cols rs) 1).rows.map Prod.fst) →
        l ∈ ((withRangeIndex cols rs).rows.map Prod.fst))
    ∧ (∀ l, l ∈ ((queryY (withRangeIndex cols rs) 0).rows.map Prod.fst) →
        l ∈ ((withRangeIndex cols rs).rows.map Prod.fst)) := by
  refine ⟨List.filter_sublist _, List.filter_sublist _, ?_, ?_, ?_⟩
  · intro l hl1 hl0
    obtain ⟨r, hr1, hrl⟩ := List.mem_map.mp hl1
    obtain ⟨s, hs0, hsl⟩ := List.mem_map.mp hl0
    have hr := List.mem_filter.mp hr1
    have hs := List.mem_filter.mp hs0
    have hrs : r = s :=
      withRangeIndex_label_inj hr.1 hs.1 (by rw [hrl, hsl])
    have hy1 : yValue cols r.2 = some 1 := of_decide_eq_true hr.2
    have hy0 : yValue cols s.2 = some 0 := of_decide_eq_true hs.2
    rw [hrs, hy0] at hy1
    exact one_ne_zero (Option.some.injEq .. ▸ hy1.symm : (1 : ℚ) = 0)
  · intro l hl
    obtain ⟨r, hr, hrl⟩ := List.mem_map.mp hl
    exact List.mem_map.mpr ⟨r, (List.mem_filter.mp hr).1, hrl⟩
  · intro l hl
    obtain ⟨r, hr, hrl⟩ := List.mem_map.mp hl
    exact List.mem_map.mpr ⟨r, (List.mem_filter.mp hr).1, hrl⟩

/-- C10 (witness): label preservation on a two-row frame, one row per
class. -/
theorem filter_preserves_labels_witness :
    (((0 : ℕ) : ℚ)) ∈ ((queryY (withRangeIndex ["y"] [[some 1], [some 0]]) 1).rows.map Prod.fst)
    ∧ (((0 : ℕ) : ℚ))
        ∉ ((queryY (withRangeIndex ["y"] [[some 1], [some 0]]) 0).rows.map Prod.fst) :=
  ⟨by decide,
    (filter_preserves_labels ["y"] [[some 1], [some 0]]).2.2.1 (((0 : ℕ) : ℚ)) (by decide)⟩

/-- C4 (counterexample): on the scenario's negative partition (three rows,
labels `1, 2, 3`) the requested position `0` is strictly below the
partition length yet the selection fails, and the requested value `3` is
not below the partition length yet the selection succeeds: the error
condition is not "some index ≥ partition length". -/
theorem selection_error_not_length_based :
    0 < (queryY scenarioDf 0).rows.length
    ∧ locList (queryY scenarioDf 0) [0] = .error .KeyError
    ∧ (queryY scenarioDf 0).rows.length ≤ 3
    ∧ locList (queryY scenarioDf 0) [3] ≠ .error .KeyError := by decide

/-- C4 (amended): the selection raises `KeyError` exactly when some
requested label is carried by no row of the partition; when every
requested label is present it returns one row per requested label. -/
theorem selection_error_condition (df : DataFrame) (labels : List Label) :
    (locList df labels = .error .KeyError ↔ ∃ l ∈ labels, ∀ r ∈ df.rows, r.1 ≠ l)
    ∧ ((∀ l ∈ labels, ∃ r ∈ df.rows, r.1 = l) →
        ∃ out, locList df labels = .ok out ∧ out.rows.length = labels.length) := by
  have hpresent : ∀ l, (df.rows.any (fun r => decide (r.1 = l)) = true)
      ↔ ∃ r ∈ df.rows, r.1 = l := by
    intro l
    rw [List.any_eq_true]
    constructor
    · rintro ⟨r, hr, hrl⟩
      exact ⟨r, hr, of_decide_eq_true hrl⟩
    · rintro ⟨r, hr, hrl⟩
      exact ⟨r, hr, decide_eq_true hrl⟩
  constructor
  · rw [locList]
    split
    case isTrue hb =>
      rw [List.all_eq_true] at hb
      constructor
      · intro h
        exact absurd h (by simp)
      · rintro ⟨l, hl, hnone⟩
        obtain ⟨r, hr, hrl⟩ := (hpresent l).mp (hb l hl)
        exact absurd hrl (hnone r hr)
    case isFalse hb =>
      constructor
      · intro _
        by_contra hno
        push_neg at hno
        apply hb
        rw [List.all_eq_true]
        intro l hl
        rcases hno l hl with ⟨r, hr, hrl⟩
        exact (hpresent l).mpr ⟨r, hr, hrl⟩
      · intro
        rfl
  · intro hall
    have hb : labels.all (fun l => df.rows.any (fun r => decide (r.1 = l))) = true := by
      rw [List.all_eq_true]
      intro l hl
      exact (hpresent l).mpr (hall l hl)
    refine ⟨_, by rw [locList, if_pos hb], ?_⟩
    apply length_filterMap_of_isSome
    intro l hl
    rw [List.find?_isSome]
    obtain ⟨r, hr, hrl⟩ := hall l hl
    exact ⟨r, hr, decide_eq_true hrl⟩

/-- C4 (witness): on the scenario's negative partition, requesting the
absent label `0` raises `KeyError`, and requesting the present labels
`[1, 2]` returns exactly two rows. -/
theorem selection_error_condition_witness :
    (∃ l ∈ ([0] : List Label), ∀ r ∈ (queryY scenarioDf 0).rows, r.1 ≠ l)
    ∧ locList (queryY scenarioDf 0) [0] = .error .KeyError
    ∧ (∀ l ∈ ([1, 2] : List Label), ∃ r ∈ (queryY scenarioDf 0).rows, r.1 = l)
    ∧ (∃ out, locList (queryY scenarioDf 0) [1, 2] = .ok out
        ∧ out.rows.length = ([1, 2] : List Label).length) :=
  ⟨by decide,
    (selection_error_condition (queryY scenarioDf 0) [0]).1.mpr (by decide),
    by decide,
    (selection_error_condition (queryY scenarioDf 0) [1, 2]).2 (by decide)⟩

/-- C6 (amended): `read_csv` fails with `FileAccessError` exactly when the
path is missing; given a present file it fails with `ParseError` exactly
when some data row has more fields than the expected width — established
by the first data row, with the header width as floor; a first data row
wider than the header makes its extra leading columns an implicit index
and is never itself an error — and when every row is at most that wide
(shorter rows are padded) it returns a frame. -/
theorem load_error_conditions (fs : FileSystem) (path : String) :
    (read_csv fs path = .error .FileAccessError ↔ fs path = none)
    ∧ (∀ f, fs path = some f →
        ((read_csv fs path = .error .ParseError
            ↔ ∃ r ∈ f.rows, expectedWidth f < r.length)
          ∧ ((∀ r ∈ f.rows, r.length ≤ expectedWidth f) →
              ∃ df, read_csv fs path = .ok df))) := by
  constructor
  · cases hfs : fs path with
    | none => simp [read_csv, hfs]
    | some f =>
      simp only [read_csv, hfs]
      constructor
      · intro h
        split at h
        · cases h
        · split at h <;> cases h
      · intro h
        cases h
  · intro f hf
    constructor
    · simp only [read_csv, hf]
      constructor
      · intro h
        split at h
        case isTrue hb =>
          obtain ⟨r, hr, hrb⟩ := List.any_eq_true.mp hb
          exact ⟨r, hr, of_decide_eq_true hrb⟩
        case isFalse hb =>
          split at h <;> cases h
      · rintro ⟨r, hr, hrlen⟩
        rw [if_pos (List.any_eq_true.mpr ⟨r, hr, decide_eq_true hrlen⟩)]
    · intro hshort
      simp only [read_csv, hf]
      have hb : f.rows.any (fun r => decide (expectedWidth f < r.length)) = false := by
        rw [List.any_eq_false]
        intro r hr
        simp only [decide_eq_true_eq, not_lt]
        exact hshort r hr
      rw [hb]
      by_cases hw : f.header.length < expectedWidth f
      · rw [if_pos hw]
        exact ⟨_, rfl⟩
      · rw [if_neg hw]
        exact ⟨_, rfl⟩

/-- C6 (witness): the missing path fails with `FileAccessError`; the
ragged file, whose rows are never wider than expected, loads; and the
file whose data rows are two fields wider than the header loads too, the
extra leading columns becoming the implicit index. -/
theorem load_error_conditions_witness :
    (raggedFS "missing.csv" = none
      ∧ read_csv raggedFS "missing.csv" = .error .FileAccessError)
    ∧ (raggedFS "ragged.csv" = some raggedFile
        ∧ (∀ r ∈ raggedFile.rows, r.length ≤ expectedWidth raggedFile)
        ∧ ∃ df, read_csv raggedFS "ragged.csv" = .ok df)
    ∧ (wideFS "wide.csv" = some wideFile
        ∧ (∀ r ∈ wideFile.rows, r.length ≤ expectedWidth wideFile)
        ∧ ∃ df, read_csv wideFS "wide.csv" = .ok df) :=
  ⟨⟨by decide, (load_error_conditions raggedFS "missing.csv").1.mpr (by decide)⟩,
   ⟨by decide, by decide,
    ((load_error_conditions raggedFS "ragged.csv").2 raggedFile (by decide)).2 (by decide)⟩,
   ⟨by decide, by decide,
    ((load_error_conditions wideFS "wide.csv").2 wideFile (by decide)).2 (by decide)⟩⟩

/-- C7: every operation the script performs after the load leaves the
loaded frame unchanged, and when the script runs to completion the
partitions it holds are exactly the two label filters of the original
frame — each partition is computed from the frame and no later step
touches either. -/
theorem dataset_immutable_after_load :
    (∀ step ∈ scriptSteps, ∀ s t, step s = .ok t → t.df = s.df)
    ∧ (∀ df s, runScript df = .ok s →
        s.df = df ∧ s.positive = some (queryY df 1) ∧ s.negative = some (queryY df 0)) := by
  constructor
  · intro step hstep s t h
    simp only [scriptSteps, List.mem_cons, List.not_mem_nil, or_false] at hstep
    rcases hstep with rfl | rfl | rfl | rfl | rfl
    · simp only [stepPrintDf, Except.ok.injEq] at h
      rw [← h]
    · simp only [stepFilterPositive, Except.ok.injEq] at h
      rw [← h]
    · simp only [stepFilterNegative, Except.ok.injEq] at h
      rw [← h]
    · cases hneg : s.negative with
      | none => simp only [stepPrintSelection, hneg] at h; cases h
      | some neg =>
        simp only [stepPrintSelection, hneg] at h
        cases hsel : locList neg [0, 1, 2] with
        | error e => rw [hsel] at h; cases h
        | ok sel =>
          rw [hsel] at h
          simp only [Except.map, Except.ok.injEq] at h
          rw [← h]
    · cases hneg : s.negative with
      | none => simp only [stepPlot, hneg] at h; cases h
      | some neg =>
        simp only [stepPlot, hneg] at h
        cases hrow : locScalar neg 0 with
        | error e => rw [hrow] at h; cases h
        | ok row =>
          rw [hrow] at h
          simp only [Except.map, Except.ok.injEq] at h
          rw [← h]
  · intro df s h
    rw [runScript, scriptSteps] at h
    simp only [List.foldlM, bind, Except.bind, stepPrintDf, stepFilterPositive,
      stepFilterNegative, stepPrintSelection, stepPlot, initState, pure, Except.pure] at h
    cases hsel : locList (queryY df 0) [0, 1, 2] with
    | error e => rw [hsel] at h; cases h
    | ok sel =>
      rw [hsel] at h
      simp only [Except.map] at h
      cases hrow : locScalar (queryY df 0) 0 with
      | error e => rw [hrow] at h; cases h
      | ok row =>
        rw [hrow] at h
        simp only [Except.map, Except.ok.injEq] at h
        rw [← h]
        exact ⟨rfl, rfl, rfl⟩

/-- C7 (witness): the first step at a concrete state, and the full run on
the frame `okDf` whose first three rows are negative. -/
theorem dataset_immutable_after_load_witness :
    (({ df := okDf, positive := none, negative := none, printed := [okDf],
        figure := none } : ScriptState).df = (initState okDf).df)
    ∧ (okFinal.df = okDf ∧ okFinal.positive = some (queryY okDf 1)
        ∧ okFinal.negative = some (queryY okDf 0)) :=
  ⟨dataset_immutable_after_load.1 stepPrintDf (List.Mem.head _) (initState okDf)
      { df := okDf, positive := none, negative := none, printed := [okDf], figure := none }
      (by decide),
   dataset_immutable_after_load.2 okDf okFinal (by decide)⟩

/-- C1 (amended): `seizure_negative.loc[[0, 1, 2]]` selects by the rows'
original dataset index labels, not by ordinal position; when the dataset's
first three rows (labels `0, 1, 2`) are all negative those labels head the
negative partition, so the selection returns exactly the first three rows
of the partition in original order — and otherwise it raises `KeyError`
even when the partition has three or more rows. -/
theorem selectRows_by_label_first_three
    (cols : List String) (r0 r1 r2 : List Cell) (rest : List (List Cell))
    (h0 : yValue cols r0 = some 0) (h1 : yValue cols r1 = some 0)
    (h2 : yValue cols r2 = some 0) :
    locList (queryY (withRangeIndex cols (r0 :: r1 :: r2 :: rest)) 0) [0, 1, 2]
      = .ok { columns := cols,
              rows := (queryY (withRangeIndex cols (r0 :: r1 :: r2 :: rest)) 0).rows.take 3 } := by
  have hrows : (withRangeIndex cols (r0 :: r1 :: r2 :: rest)).rows
      = (((0 : ℕ) : ℚ), r0) :: (((1 : ℕ) : ℚ), r1) :: (((2 : ℕ) : ℚ), r2)
        :: (rest.enumFrom 3).map (fun p => ((p.1 : ℚ), p.2)) := rfl
  rw [show ((0 : ℕ) : ℚ) = 0 from by decide, show ((1 : ℕ) : ℚ) = 1 from by decide,
      show ((2 : ℕ) : ℚ) = 2 from by decide] at hrows
  have hneg : (queryY (withRangeIndex cols (r0 :: r1 :: r2 :: rest)) 0).rows
      = ((0 : ℚ), r0) :: ((1 : ℚ), r1) :: ((2 : ℚ), r2)
        :: ((rest.enumFrom 3).map (fun p => ((p.1 : ℚ), p.2))).filter
             (fun r => decide (yValue cols r.2 = some 0)) := by
    have hcols : (withRangeIndex cols (r0 :: r1 :: r2 :: rest)).columns = cols := rfl
    simp [queryY, hrows, hcols, List.filter_cons, h0, h1, h2]
  have b00 : (decide ((0 : ℚ) = 0)) = true := by decide
  have b10 : (decide ((1 : ℚ) = 0)) = false := by decide
  have b20 : (decide ((2 : ℚ) = 0)) = false := by decide
  have b01 : (decide ((0 : ℚ) = 1)) = false := by decide
  have b11 : (decide ((1 : ℚ) = 1)) = true := by decide
  have b21 : (decide ((2 : ℚ) = 1)) = false := by decide
  have b02 : (decide ((0 : ℚ) = 2)) = false := by decide
  have b12 : (decide ((1 : ℚ) = 2)) = false := by decide
  have b22 : (decide ((2 : ℚ) = 2)) = true := by decide
  have hcols : (queryY (withRangeIndex cols (r0 :: r1 :: r2 :: rest)) 0).columns = cols := rfl
  simp [locList, hneg, hcols, List.all_cons, List.any_cons, List.find?_cons,
    List.filterMap_cons, b00, b10, b20, b01, b11, b21, b02, b12, b22]

/-- C1 (witness): a dataset whose first three rows are negative, on which
the selection returns the first three rows of the negative partition. -/
theorem selectRows_by_label_first_three_witness :
    yValue ["y", "f0"] [some 0, some (mkRat 1 10)] = some 0
    ∧ yValue ["y", "f0"] [some 0, some (mkRat 2 10)] = some 0
    ∧ yValue ["y", "f0"] [some 0, some (mkRat 3 10)] = some 0
    ∧ locList
        (queryY (withRangeIndex ["y", "f0"]
          [[some 0, some (mkRat 1 10)], [some 0, some (mkRat 2 10)],
           [some 0, some (mkRat 3 10)]]) 0) [0, 1, 2]
      = .ok { columns := ["y", "f0"],
              rows := (queryY (withRangeIndex ["y", "f0"]
                [[some 0, some (mkRat 1 10)], [some 0, some (mkRat 2 10)],
                 [some 0, some (mkRat 3 10)]]) 0).rows.take 3 } :=
  ⟨by decide, by decide, by decide,
    selectRows_by_label_first_three ["y", "f0"]
      [some 0, some (mkRat 1 10)] [some 0, some (mkRat 2 10)] [some 0, some (mkRat 3 10)]
      [] (by decide) (by decide) (by decide)⟩

/-- C8: the selection on line 15 is keyed on the original dataset's index
labels: whenever some existing row with original index `0`, `1` or `2` is
not negative, its label is missing from the negative partition, so
`seizure_negative.loc[[0, 1, 2]]` raises `KeyError` and the script
terminates — regardless of how many rows the negative partition has. -/
theorem selection_keyed_on_original_labels
    (cols : List String) (rs : List (List Cell)) (i : ℕ) (ri : List Cell)
    (hget : rs[i]? = some ri) (hi : i ≤ 2) (hy : yValue cols ri ≠ some 0) :
    locList (queryY (withRangeIndex cols rs) 0) [0, 1, 2] = .error .KeyError
    ∧ runScript (withRangeIndex cols rs) = .error .KeyError := by
  have hnall : ¬ (([0, 1, 2] : List Label).all
      (fun l => (queryY (withRangeIndex cols rs) 0).rows.any
        (fun r => decide (r.1 = l))) = true) := by
    intro hall
    rw [List.all_eq_true] at hall
    have hmem : ((i : ℕ) : ℚ) ∈ ([0, 1, 2] : List Label) := by
      interval_cases i
      · exact List.Mem.head _
      · exact List.mem_cons_of_mem _ (List.Mem.head _)
      · exact List.mem_cons_of_mem _ (List.mem_cons_of_mem _ (List.Mem.head _))
    have hany := hall _ hmem
    rw [List.any_eq_true] at hany
    obtain ⟨r, hr, hrl⟩ := hany
    have hrl' : r.1 = ((i : ℕ) : ℚ) := of_decide_eq_true hrl
    have hrmem := List.mem_filter.mp hr
    have hy0 : yValue cols r.2 = some 0 := of_decide_eq_true hrmem.2
    obtain ⟨lr, cr⟩ := r
    obtain ⟨j, hj, hlj⟩ := mem_withRangeIndex.mp hrmem.1
    obtain rfl : j = i := Nat.cast_inj.mp (hlj.symm.trans hrl')
    rw [hget] at hj
    obtain rfl : ri = cr := (Option.some.injEq .. ▸ hj : ri = cr)
    exact hy hy0
  have hkey : locList (queryY (withRangeIndex cols rs) 0) [0, 1, 2] = .error .KeyError := by
    rw [locList, if_neg hnall]
  refine ⟨hkey, ?_⟩
  rw [runScript, scriptSteps]
  simp only [List.foldlM, bind, Except.bind, stepPrintDf, stepFilterPositive,
    stepFilterNegative, stepPrintSelection, initState, hkey]
  rfl

/-- C8 (witness): a one-row dataset whose row `0` is positive: the
selection and the whole script fail with `KeyError`. -/
theorem selection_keyed_on_original_labels_witness :
    ([[some (1 : ℚ)]] : List (List Cell))[(0 : ℕ)]? = some [some (1 : ℚ)]
    ∧ (0 : ℕ) ≤ 2
    ∧ yValue ["y"] [some (1 : ℚ)] ≠ some 0
    ∧ locList (queryY (withRangeIndex ["y"] [[some (1 : ℚ)]]) 0) [0, 1, 2] = .error .KeyError
    ∧ runScript (withRangeIndex ["y"] [[some (1 : ℚ)]]) = .error .KeyError :=
  ⟨by decide, by decide, by decide,
    selection_keyed_on_original_labels ["y"] [[some (1 : ℚ)]] 0 [some (1 : ℚ)]
      (by decide) (by decide) (by decide)⟩
